import Mathlib

/-!
A shallow embedding of `qiskit_aqua/algorithms/single_sample/hhl/hhl.py`
(class `HHL`): the guards of `init_params`, the `CUSTOM` initial-state
handling, `_construct_circuit`, the exact-simulation state extractor
`_exact_simulation`, the `_state_tomography` stub, and `run`.

Floating-point amplitudes are modelled as exact rationals (every Python
float is a rational); the real-valued renormalization step (division by a
Euclidean norm, i.e. by a square root) is modelled over `ℝ`.
-/

namespace HHL

/-- A complex amplitude: real and imaginary part, floats modelled as `ℚ`. -/
abbrev Cplx := ℚ × ℚ

/-- Squared magnitude `|v|²` of an amplitude. -/
def magSq (v : Cplx) : ℚ := v.1 * v.1 + v.2 * v.2

/-- The exceptions the module can raise.  `algorithmError` models
`AlgorithmError` (the spec's `ConfigurationError`), `notImplementedError`
models `NotImplementedError` (the spec's `NotSupportedError`),
`assertionError` models Python's `AssertionError`. -/
inductive PyError
  | algorithmError (msg : String)
  | notImplementedError
  | assertionError
  deriving DecidableEq

/-- Effective noise threshold of line 207.  The call
`np.isclose(sv, 0, 1e-10)` passes `1e-10` as `rtol` (third positional
argument of `np.isclose`), which multiplies `|0| = 0`; the comparison is
`|a| <= atol + rtol*|0| = atol` with numpy's default `atol = 1e-8`. -/
def atol : ℚ := 1 / 100000000

/-- Line 207: the surviving `(index, amplitude)` pairs of
`idxs = np.where(np.logical_not(np.isclose(sv, 0, 1e-10)))[0]` together
with `vals = sv[idxs]` (line 208): entries with `|v| > 1e-8`, compared on
squared magnitudes to stay in `ℚ`. -/
def svFiltered (sv : List Cplx) : List (Nat × Cplx) :=
  sv.enum.filter (fun p => decide (atol * atol < magSq p.2))

/-- Lines 209, 211–212: restriction to the success branch,
`correct = idxs >= 2**(num-1)`. -/
def successPairs (sv : List Cplx) (N : Nat) : List (Nat × Cplx) :=
  (svFiltered sv).filter (fun p => decide (2 ^ (N - 1) ≤ p.1))

/-- Line 210: `p = np.sum(np.abs(vals[correct])**2)`. -/
def success_prob (sv : List Cplx) (N : Nat) : ℚ :=
  ((successPairs sv N).map (fun p => magSq p.2)).sum

/-- Line 213: the square of `np.linalg.norm(vals)` over the success-branch
amplitudes (a separate expression in the source, though it denotes the same
sum of squared magnitudes as `p`). -/
def successNormSq (sv : List Cplx) (N : Nat) : ℚ :=
  ((successPairs sv N).map (fun p => magSq p.2)).sum

/-- Modelled from the spec (4.4a), for refinement comparison only: the
spec's noise-suppression step with threshold `ε = 1e-10` ("treat any
amplitude with magnitude ≤ ε as exactly zero"). -/
def epsSpec : ℚ := 1 / 10000000000

/-- Modelled from the spec, for refinement comparison only: filtering with
the spec's `ε = 1e-10` in place of the code's effective `1e-8`. -/
def svFilteredSpec (sv : List Cplx) : List (Nat × Cplx) :=
  sv.enum.filter (fun p => decide (epsSpec * epsSpec < magSq p.2))

/-- Modelled from the spec, for refinement comparison only: the success
probability as the spec describes it, over the `ε = 1e-10` filtering. -/
def success_prob_spec (sv : List Cplx) (N : Nat) : ℚ :=
  ((((svFilteredSpec sv).filter (fun p => decide (2 ^ (N - 1) ≤ p.1))).map
    (fun p => magSq p.2))).sum

/-- Binary digits of `n`, most significant first (empty for `0`). -/
def natToBin : Nat → List Char
  | 0 => []
  | n + 1 =>
    natToBin ((n + 1) / 2) ++ [if (n + 1) % 2 = 1 then '1' else '0']
decreasing_by exact Nat.div_lt_self (Nat.succ_pos n) (by decide)

/-- Line 214: `np.binary_repr(idx, width=num)` — the binary representation
of `idx`, zero-padded on the left to `width` characters. -/
def binary_repr (n width : Nat) : List Char :=
  let s := if n = 0 then ['0'] else natToBin n
  List.replicate (width - s.length) '0' ++ s

/-- Python slice `s[-k:]`: the last `k` characters for `k > 0` (the whole
string when `k ≥ len(s)`), and the whole string for `k = 0` (since
`s[-0:] = s[0:]`). -/
def pyLastSlice (s : List Char) (k : Nat) : List Char :=
  if k = 0 then s else s.drop (s.length - k)

/-- Python dict insertion: an existing key keeps its position and gets the
new value, a new key is appended. -/
def dictInsert {α : Type} (d : List (String × α)) (k : String) (v : α) :
    List (String × α) :=
  if d.any (fun p => p.1 == k) then
    d.map (fun p => if p.1 == k then (k, v) else p)
  else d ++ [(k, v)]

/-- A Python dict comprehension over a list of key/value pairs. -/
def buildDict {α : Type} (l : List (String × α)) : List (String × α) :=
  l.foldl (fun d p => dictInsert d p.1 p.2) []

/-- Lines 213–215: the decoded result mapping.  Each surviving success
index is renormalized by `np.linalg.norm(vals)`, keyed by the last `num_q`
characters of its width-`num` binary representation, with the real part of
the renormalized amplitude as value. -/
noncomputable def exact_dict (sv : List Cplx) (num num_q : Nat) :
    List (String × ℝ) :=
  buildDict ((successPairs sv num).map (fun p =>
    ((pyLastSlice (binary_repr p.1 num) num_q).asString,
     (p.2.1 : ℝ) / Real.sqrt ((successNormSq sv num : ℚ) : ℝ))))

/-- Line 213: the renormalized success-branch amplitudes
`vals = vals/np.linalg.norm(vals)`, as real/imaginary pairs over `ℝ`. -/
noncomputable def renormalizedVals (sv : List Cplx) (N : Nat) :
    List (ℝ × ℝ) :=
  (successPairs sv N).map (fun p =>
    ((p.2.1 : ℝ) / Real.sqrt ((successNormSq sv N : ℚ) : ℝ),
     (p.2.2 : ℝ) / Real.sqrt ((successNormSq sv N : ℚ) : ℝ)))

/-- An entry of a `CUSTOM` `state_vector`: a number, or a two-element list
`[re, im]` (converted at line 147 by
`x[0]+1j*x[1] if isinstance(x, list) else x`). -/
inductive PyEntry
  | num (x : ℚ)
  | pair (re im : ℚ)
  deriving DecidableEq

/-- Lines 147–148: conversion of a `state_vector` entry to a complex
amplitude. -/
def entryToC : PyEntry → Cplx
  | .num x => (x, 0)
  | .pair a b => (a, b)

/-- Python truthiness of a tuple: a tuple is falsy iff it is empty. -/
def tupleTruthy (len : Nat) : Bool := len != 0

/-- Lines 138–139: `assert(matrix.shape[0] == len(...), "Check input vector
size!")`.  The parenthesized, comma-separated form asserts the 2-tuple
`(shape0 == svLen, "Check input vector size!")` itself, whose truthiness is
that of a tuple of length 2 — so the assert never fires, whatever the two
lengths are. -/
def customAssert (_shape0 _svLen : Nat) : Except PyError Unit :=
  if tupleTruthy 2 then .ok () else .error .assertionError

/-- Line 140: `tmpvec = invec + (2**num_q - len(invec))*[0]`.  Python list
repetition with a negative count yields `[]`, which `Nat` subtraction
models exactly: a too-long `invec` is neither extended nor truncated. -/
def fixInvec (invec : List PyEntry) (num_q : Nat) : List PyEntry :=
  invec ++ List.replicate (2 ^ num_q - invec.length) (.num 0)

/-- The fields `init_args` stores (lines 158–166), as far as the claims
need them.  `stateVectorPassed` is what `init_state_params['state_vector']`
holds after line 141 (`none` outside the `CUSTOM` branch, where it is not
written); `invec` is `self._invec`, converted at lines 147–148 from the
original, unpadded vector. -/
structure InitState where
  matrix : List (List ℚ)
  invec : List Cplx
  stateVectorPassed : Option (List PyEntry)
  mode : Option String
  num_q : Nat
  num_a : Nat
  deriving DecidableEq

/-- Lines 104–155, `init_params`.  External collaborator calls
(`get_eigs_instance`, `eigs.init_params`, `get_initial_state_instance`,
`get_reciprocal_instance`, …) are out of the module; their one output the
module consumes, `eigs.get_register_sizes() = (num_q, num_a)`, is passed in
as `num_q`/`num_a`.  The guards model lines 111–123: `matrix is None`
raises `AlgorithmError` (the name `AlgorithmError` is not imported by the
module, so CPython would surface the raise as a `NameError`; either way
initialization fails at that point), `exact_simulation` off the statevector
backend raises `AlgorithmError`, `state_tomography` raises
`NotImplementedError`.  No squareness or numericness check is performed on
the matrix (line 113 merely wraps it with `np.array`).  Circuit
construction happens only later, inside `run`. -/
def init_params (matrixArg : Option (List (List ℚ))) (backend : String)
    (mode : Option String) (initStateName : String)
    (stateVector : List PyEntry) (num_q num_a : Nat) :
    Except PyError InitState :=
  match matrixArg with
  | none => .error (.algorithmError "Matrix instance is required.")
  | some matrix =>
    let custom : Except PyError InitState :=
      if initStateName = "CUSTOM" then
        match customAssert matrix.length stateVector.length with
        | .error e => .error e
        | .ok () =>
          .ok { matrix := matrix
                invec := stateVector.map entryToC
                stateVectorPassed := some (fixInvec stateVector num_q)
                mode := mode, num_q := num_q, num_a := num_a }
      else
        .ok { matrix := matrix
              invec := [((1 : ℚ), (0 : ℚ)), ((0 : ℚ), (0 : ℚ))]
              stateVectorPassed := none
              mode := mode, num_q := num_q, num_a := num_a }
    if mode = some "exact_simulation" then
      if backend ≠ "local_statevector_simulator" then
        .error (.algorithmError "statevector simulator required for exact_simulation")
      else custom
    else if mode = some "state_tomography" then
      .error .notImplementedError
    else custom

/-- The sub-circuit fragments `_construct_circuit` appends, in order. -/
inductive Fragment
  | initialState
  | eigsForward
  | reciprocal
  | eigsInverse
  | measureAnc
  deriving DecidableEq

/-- The circuit artifact `_construct_circuit` leaves behind: quantum
registers (name, size) in allocation order — `io` (size `num_q`), the eigs
collaborator's output register (size `num_a`), the reciprocal
collaborator's ancilla (1 qubit) — classical register sizes, the ordered
fragments, and `self._success_bit` (the size of the classical register it
holds, `none` when never assigned). -/
structure CircuitDesc where
  qregs : List (String × Nat)
  cregs : List Nat
  fragments : List Fragment
  successBit : Option Nat
  deriving DecidableEq

/-- Lines 169–197, `_construct_circuit`.  The collaborator-owned register
names are modelled as the fixed strings `io`, `eigs`, `anc`.  Lines
187–192: iff the mode is not `exact_simulation`, a 1-bit classical
register is allocated, the ancilla is measured into it, and it is retained
as `self._success_bit`. -/
def construct_circuit (mode : Option String) (num_q num_a : Nat) :
    CircuitDesc :=
  let base : CircuitDesc :=
    { qregs := [("io", num_q), ("eigs", num_a), ("anc", 1)]
      cregs := []
      fragments := [.initialState, .eigsForward, .reciprocal, .eigsInverse]
      successBit := none }
  if mode ≠ some "exact_simulation" then
    { base with
        cregs := [1]
        fragments := base.fragments ++ [.measureAnc]
        successBit := some 1 }
  else base

/-- A register handle as stored in the `regs` dictionary of `run`. -/
inductive RegEntry
  | qreg (name : String) (size : Nat)
  | creg (size : Nat)
  | noneEntry
  deriving DecidableEq

/-- A value of the `self._ret` dictionary. -/
inductive RVal
  | circuitV (c : CircuitDesc)
  | regsV (rs : List (String × RegEntry))

/-- What a call of `run` observably produces: the returned `self._ret`
dictionary, the dictionaries printed on stdout (line 216), and whether
`self.execute` was called. -/
structure RunOutput where
  ret : List (String × RVal)
  printed : List (List (String × ℝ))
  executed : Bool

/-- Lines 224–239, `run`, together with `_exact_simulation`
(lines 200–216) and `_state_tomography` (lines 220–221).  The external
`self.execute(...).get_statevector()` result is passed in as `sv`.  In the
`exact_simulation` branch, `num` is the total size of the circuit's
quantum registers (lines 203–206); `_exact_simulation` computes the
mapping `d` and the probability `p` but only prints `d` — `p` is bound and
then dropped, and `self._ret` is never written, so the empty dictionary is
returned.  `_state_tomography` is `pass`: it neither raises nor writes
anything. -/
noncomputable def run (mode : Option String) (num_q num_a : Nat)
    (sv : List Cplx) : Except PyError RunOutput :=
  let circ := construct_circuit mode num_q num_a
  if mode = some "circuit" then
    .ok { ret := [("circuit", .circuitV circ),
                  ("regs", .regsV
                    [("io_register", .qreg "io" num_q),
                     ("eigenvalue_register", .qreg "eigs" num_a),
                     ("ancilla_register", .qreg "anc" 1),
                     ("self._success_bit",
                      match circ.successBit with
                      | some n => .creg n
                      | none => .noneEntry)])]
          printed := []
          executed := false }
  else if mode = some "exact_simulation" then
    let num := (circ.qregs.map Prod.snd).sum
    .ok { ret := []
          printed := [exact_dict sv num num_q]
          executed := true }
  else if mode = some "state_tomography" then
    .ok { ret := [], printed := [], executed := false }
  else
    .ok { ret := [], printed := [], executed := false }

/-- The returned dictionary of a `run` result (empty for an exception). -/
def retOf : Except PyError RunOutput → List (String × RVal)
  | .ok o => o.ret
  | .error _ => []

/-- All amplitude mass at index 6 of a `2³`-entry state vector. -/
def sv6 : List Cplx :=
  [(0, 0), (0, 0), (0, 0), (0, 0), (0, 0), (0, 0), (1, 0), (0, 0)]

/-- All amplitude mass at index 2 of a `2³`-entry state vector. -/
def sv2 : List Cplx :=
  [(0, 0), (0, 0), (1, 0), (0, 0), (0, 0), (0, 0), (0, 0), (0, 0)]

/-- A state vector whose index-6 amplitude has magnitude `5·10⁻⁹`: above
the spec's `ε = 1e-10`, but at most the code's effective threshold
`1e-8`. -/
def svEps : List Cplx :=
  [(0, 0), (0, 0), (0, 0), (0, 0), (1, 0), (0, 0), (1 / 200000000, 0), (0, 0)]

/-- The entries of the first `regs` dictionary stored in a result. -/
def regsEntries : List (String × RVal) → List (String × RegEntry)
  | [] => []
  | (_, .regsV rs) :: _ => rs
  | _ :: rest => regsEntries rest

/-- Evaluation of the success-branch pairs of `sv6`. -/
theorem successPairs_sv6 : successPairs sv6 3 = [(6, ((1 : ℚ), (0 : ℚ)))] := by
  norm_num [successPairs, svFiltered, sv6, magSq, atol, List.enum,
    List.enumFrom, List.filter]

/-- Evaluation of the success probability of `sv6`. -/
theorem success_prob_sv6 : success_prob sv6 3 = 1 := by
  norm_num [success_prob, successPairs, svFiltered, sv6, magSq, atol,
    List.enum, List.enumFrom, List.filter]

/-- Evaluation of the squared norm of the success branch of `sv6`. -/
theorem successNormSq_sv6 : successNormSq sv6 3 = 1 := by
  norm_num [successNormSq, successPairs, svFiltered, sv6, magSq, atol,
    List.enum, List.enumFrom, List.filter]

/-- Evaluation of the success-branch pairs of `sv2`. -/
theorem successPairs_sv2 : successPairs sv2 3 = [] := by
  norm_num [successPairs, svFiltered, sv2, magSq, atol, List.enum,
    List.enumFrom, List.filter]

/-- Evaluation of the success probability of `sv2`. -/
theorem success_prob_sv2 : success_prob sv2 3 = 0 := by
  norm_num [success_prob, successPairs, svFiltered, sv2, magSq, atol,
    List.enum, List.enumFrom, List.filter]

/-- C4: for `N = 3`, `num_q = 2` with all amplitude mass at index 6
(binary `110`) the extractor produces the mapping `{"10": 1.0}` and
success probability `1.0`; with all mass at index 2 (binary `010`, success
bit unset) it produces the empty mapping and probability `0.0`. -/
theorem C4_extractor_concrete_cases :
    exact_dict sv6 3 2 = [("10", (1 : ℝ))] ∧ success_prob sv6 3 = 1 ∧
    exact_dict sv2 3 2 = [] ∧ success_prob sv2 3 = 0 := by
  refine ⟨?_, success_prob_sv6, ?_, success_prob_sv2⟩
  · rw [exact_dict, successPairs_sv6, successNormSq_sv6]
    have hchars : pyLastSlice (binary_repr 6 3) 2 = ['1', '0'] := by
      norm_num [pyLastSlice, binary_repr, natToBin]
    have hkey : (pyLastSlice (binary_repr 6 3) 2).asString = "10" := by
      rw [hchars]
      rfl
    norm_num [buildDict, dictInsert, hkey, Real.sqrt_one]
  · rw [exact_dict, successPairs_sv2]
    norm_num [buildDict]

/-- C3 as stated is false: the noise-suppression threshold is not
`ε = 1e-10`.  The source's `np.isclose(sv, 0, 1e-10)` passes `1e-10` as
`rtol`, which multiplies `|0| = 0`, leaving numpy's default `atol = 1e-8`
as the effective threshold.  On `svEps`, whose index-6 amplitude has
magnitude `5·10⁻⁹`, the code reports `p = 1` while filtering with the
claimed `ε = 1e-10` would report `p = 1 + 2.5·10⁻¹⁷`. -/
theorem C3_eps_counterexample :
    success_prob svEps 3 = 1 ∧
    success_prob_spec svEps 3 = 1 + 1 / 40000000000000000 ∧
    success_prob svEps 3 ≠ success_prob_spec svEps 3 := by
  refine ⟨?_, ?_, ?_⟩
  · norm_num [success_prob, successPairs, svFiltered, svEps, magSq, atol,
      List.enum, List.enumFrom, List.filter]
  · norm_num [success_prob_spec, svFilteredSpec, svEps, magSq, epsSpec,
      List.enum, List.enumFrom, List.filter]
  · norm_num [success_prob, success_prob_spec, successPairs, svFiltered,
      svFilteredSpec, svEps, magSq, atol, epsSpec, List.enum,
      List.enumFrom, List.filter]

/-- Helper: a sum of `f` over a doubly filtered list equals the sum over
the whole list where non-selected entries contribute 0. -/
theorem sum_two_filters {α : Type} (l : List α) (P Q : α → Prop)
    [DecidablePred P] [DecidablePred Q] (f : α → ℚ) :
    (((l.filter (fun a => decide (P a))).filter
        (fun a => decide (Q a))).map f).sum =
    (l.map (fun a => if P a ∧ Q a then f a else 0)).sum := by
  induction l with
  | nil => simp
  | cons a t ih =>
    simp only [List.filter_filter] at ih ⊢
    by_cases hP : P a <;> by_cases hQ : Q a <;>
      simp [List.filter_cons, hP, hQ, ih]

/-- C3 amended: an index is counted in the success branch iff it carries an
amplitude with `|v| > 1e-8` (the code's effective noise threshold; the
claim's `ε = 1e-10` is numpy's `rtol` and inert against 0) and
`index ≥ 2^(N-1)`, and the reported `p` is the sum of squared magnitudes
over exactly those index/amplitude pairs. -/
theorem C3_success_branch_characterization (sv : List Cplx) (N : Nat)
    (_hlen : sv.length = 2 ^ N) (_hN : 1 ≤ N) :
    (∀ i v, (i, v) ∈ successPairs sv N ↔
      (sv[i]? = some v ∧ atol * atol < magSq v ∧ 2 ^ (N - 1) ≤ i)) ∧
    success_prob sv N =
      (sv.enum.map (fun p =>
        if atol * atol < magSq p.2 ∧ 2 ^ (N - 1) ≤ p.1 then
          magSq p.2 else 0)).sum := by
  constructor
  · intro i v
    simp only [successPairs, svFiltered, List.mem_filter,
      List.mk_mem_enum_iff_getElem?, decide_eq_true_eq]
    tauto
  · simpa [success_prob, successPairs, svFiltered] using
      sum_two_filters sv.enum (fun p => atol * atol < magSq p.2)
        (fun p => 2 ^ (N - 1) ≤ p.1) (fun p => magSq p.2)

/-- Witness for the amended C3, at the concrete state vector `sv6`. -/
theorem C3_success_branch_witness :
    sv6.length = 2 ^ 3 ∧ (1 : Nat) ≤ 3 ∧
    ((∀ i v, (i, v) ∈ successPairs sv6 3 ↔
      (sv6[i]? = some v ∧ atol * atol < magSq v ∧ 2 ^ (3 - 1) ≤ i)) ∧
    success_prob sv6 3 =
      (sv6.enum.map (fun p =>
        if atol * atol < magSq p.2 ∧ 2 ^ (3 - 1) ≤ p.1 then
          magSq p.2 else 0)).sum) :=
  ⟨by simp [sv6], by decide,
    C3_success_branch_characterization sv6 3 (by simp [sv6]) (by decide)⟩

/-- Helper: dividing each component by `t` divides a sum of squared
magnitudes by `t²` (also for `t = 0`, where both sides vanish). -/
theorem sum_renorm_magSq (l : List (Nat × Cplx)) (t : ℝ) :
    (l.map (fun p =>
      ((p.2.1 : ℝ) / t) ^ 2 + ((p.2.2 : ℝ) / t) ^ 2)).sum =
    (l.map (fun p => ((magSq p.2 : ℚ) : ℝ))).sum / t ^ 2 := by
  induction l with
  | nil => simp
  | cons a tl ih =>
    rw [List.map_cons, List.sum_cons, List.map_cons, List.sum_cons, ih,
      add_div]
    congr 1
    rw [div_pow, div_pow, div_add_div_same]
    congr 1
    push_cast [magSq]
    ring

/-- Helper: the real cast of the success-branch squared norm is the sum of
the cast squared magnitudes. -/
theorem successNormSq_cast (sv : List Cplx) (N : Nat) :
    ((successNormSq sv N : ℚ) : ℝ) =
    ((successPairs sv N).map (fun p => ((magSq p.2 : ℚ) : ℝ))).sum := by
  rw [successNormSq, Rat.cast_list_sum, List.map_map]
  rfl

/-- Helper: the success probability is a sum of squares, hence
nonnegative. -/
theorem success_prob_nonneg (sv : List Cplx) (N : Nat) :
    0 ≤ success_prob sv N := by
  refine List.sum_nonneg ?_
  intro x hx
  simp only [List.mem_map] at hx
  obtain ⟨p, _, rfl⟩ := hx
  exact add_nonneg (mul_self_nonneg _) (mul_self_nonneg _)

/-- C5: whenever the success-branch mass is nonzero, the renormalized
success-branch amplitudes have squared magnitudes summing to exactly 1 (in
exact real arithmetic; a fortiori within 1e-9). -/
theorem C5_renormalized_sum_one (sv : List Cplx) (N : Nat)
    (h : success_prob sv N ≠ 0) :
    ((renormalizedVals sv N).map (fun v => v.1 ^ 2 + v.2 ^ 2)).sum = 1 := by
  have hEq : successNormSq sv N = success_prob sv N := rfl
  have hpos : (0 : ℝ) < ((successNormSq sv N : ℚ) : ℝ) := by
    rw [hEq]
    exact_mod_cast lt_of_le_of_ne (success_prob_nonneg sv N) (Ne.symm h)
  have hsq : Real.sqrt ((successNormSq sv N : ℚ) : ℝ) ^ 2 =
      ((successNormSq sv N : ℚ) : ℝ) := Real.sq_sqrt hpos.le
  rw [renormalizedVals, List.map_map]
  have hcomp :
      ((fun v : ℝ × ℝ => v.1 ^ 2 + v.2 ^ 2) ∘ (fun p : Nat × Cplx =>
        ((p.2.1 : ℝ) / Real.sqrt ((successNormSq sv N : ℚ) : ℝ),
         (p.2.2 : ℝ) / Real.sqrt ((successNormSq sv N : ℚ) : ℝ)))) =
      (fun p : Nat × Cplx =>
        ((p.2.1 : ℝ) / Real.sqrt ((successNormSq sv N : ℚ) : ℝ)) ^ 2 +
        ((p.2.2 : ℝ) / Real.sqrt ((successNormSq sv N : ℚ) : ℝ)) ^ 2) := rfl
  rw [hcomp, sum_renorm_magSq, hsq, ← successNormSq_cast]
  exact div_self hpos.ne'

/-- Witness for C5, at the concrete state vector `sv6`. -/
theorem C5_renormalized_witness :
    success_prob sv6 3 ≠ 0 ∧
    ((renormalizedVals sv6 3).map (fun v => v.1 ^ 2 + v.2 ^ 2)).sum = 1 :=
  ⟨by rw [success_prob_sv6]; norm_num,
    C5_renormalized_sum_one sv6 3 (by rw [success_prob_sv6]; norm_num)⟩

/-- C6: `_construct_circuit` appends the ancilla measurement, adds the
1-bit classical register and retains it as `self._success_bit` iff the
mode is not `exact_simulation`; in `exact_simulation` mode the classical
register list stays empty. -/
theorem C6_measurement_iff_not_exact (mode : Option String)
    (num_q num_a : Nat) :
    (Fragment.measureAnc ∈ (construct_circuit mode num_q num_a).fragments ↔
      mode ≠ some "exact_simulation") ∧
    ((construct_circuit mode num_q num_a).cregs = [1] ↔
      mode ≠ some "exact_simulation") ∧
    ((construct_circuit mode num_q num_a).cregs = [] ↔
      mode = some "exact_simulation") ∧
    ((construct_circuit mode num_q num_a).successBit = some 1 ↔
      mode ≠ some "exact_simulation") := by
  by_cases h : mode = some "exact_simulation" <;>
    simp [construct_circuit, h]

/-- C7: selecting `exact_simulation` with a backend other than the
statevector simulator makes `init_params` fail with `AlgorithmError` (the
spec's `ConfigurationError`); circuit construction lives in `run` and is
never reached. -/
theorem C7_exact_sim_backend_guard (matrixArg : Option (List (List ℚ)))
    (backend initStateName : String) (stateVector : List PyEntry)
    (num_q num_a : Nat) (h : backend ≠ "local_statevector_simulator") :
    ∃ msg, init_params matrixArg backend (some "exact_simulation")
      initStateName stateVector num_q num_a =
        .error (.algorithmError msg) := by
  cases matrixArg with
  | none => exact ⟨"Matrix instance is required.", rfl⟩
  | some m =>
    exact ⟨"statevector simulator required for exact_simulation",
      by simp [init_params, h]⟩

/-- Witness for C7: a qasm backend with a well-formed matrix. -/
theorem C7_backend_guard_witness :
    ("local_qasm_simulator" : String) ≠ "local_statevector_simulator" ∧
    ∃ msg, init_params (some [[1, 0], [0, 1]]) "local_qasm_simulator"
      (some "exact_simulation") "ZERO" [] 1 1 =
        .error (.algorithmError msg) :=
  ⟨by decide,
    C7_exact_sim_backend_guard (some [[1, 0], [0, 1]])
      "local_qasm_simulator" "ZERO" [] 1 1 (by decide)⟩

/-- C8 fails as stated: the non-square 3×2 matrix `[[1,2],[3,4],[5,6]]` is
accepted by `init_params` without any error — the only matrix validation
is the `None` check of lines 111–112 (line 113 merely wraps the argument
with `np.array`). -/
theorem C8_nonsquare_matrix_accepted :
    init_params (some [[1, 2], [3, 4], [5, 6]]) "local_qasm_simulator"
      (some "circuit") "ZERO" [] 1 1 =
    .ok { matrix := [[1, 2], [3, 4], [5, 6]]
          invec := [((1 : ℚ), (0 : ℚ)), ((0 : ℚ), (0 : ℚ))]
          stateVectorPassed := none
          mode := some "circuit", num_q := 1, num_a := 1 } := by
  simp [init_params]

/-- C8 amended: `init_params` fails with the matrix `AlgorithmError` (the
spec's `ConfigurationError`) exactly when the matrix argument is `None`;
no squareness or numericness validation is performed. -/
theorem C8_matrix_check_only_none (matrixArg : Option (List (List ℚ)))
    (backend : String) (mode : Option String) (initStateName : String)
    (stateVector : List PyEntry) (num_q num_a : Nat) :
    init_params matrixArg backend mode initStateName stateVector
        num_q num_a =
      .error (.algorithmError "Matrix instance is required.") ↔
    matrixArg = none := by
  cases matrixArg with
  | none => simp [init_params]
  | some m =>
    simp only [init_params, Option.some_ne_none, iff_false]
    by_cases h1 : mode = some "exact_simulation" <;>
      by_cases h2 : backend ≠ "local_statevector_simulator" <;>
        by_cases h3 : mode = some "state_tomography" <;>
          by_cases h4 : initStateName = "CUSTOM" <;>
            simp [h1, h2, h3, h4, customAssert, tupleTruthy]

/-- C9 fails as stated: the `circuit`-mode result returned by `run` holds
only the keys `circuit` and `regs`; the register dictionary's keys are
`io_register`, `eigenvalue_register`, `ancilla_register` and the literal
string `self._success_bit` — the mode is nowhere in the result. -/
theorem C9_mode_not_in_result :
    (retOf (run (some "circuit") 2 1 [])).map Prod.fst =
      ["circuit", "regs"] ∧
    (regsEntries (retOf (run (some "circuit") 2 1 []))).map Prod.fst =
      ["io_register", "eigenvalue_register", "ancilla_register",
       "self._success_bit"] ∧
    ¬ "mode" ∈ (retOf (run (some "circuit") 2 1 [])).map Prod.fst ∧
    ¬ "mode" ∈ (regsEntries (retOf (run (some "circuit") 2 1 []))).map
        Prod.fst := by
  refine ⟨?_, ?_, ?_, ?_⟩ <;>
    simp [run, retOf, regsEntries, construct_circuit]

/-- C9 amended: a `circuit`-mode run returns the circuit under `circuit`
and, under `regs`, the register handles keyed `io_register`,
`eigenvalue_register`, `ancilla_register` and (the literal string)
`self._success_bit`; the mode is not part of the result, and no execution
is performed. -/
theorem C9_circuit_mode_result (num_q num_a : Nat) (sv : List Cplx) :
    run (some "circuit") num_q num_a sv =
      .ok { ret := [("circuit",
                     .circuitV (construct_circuit (some "circuit")
                       num_q num_a)),
                    ("regs", .regsV
                      [("io_register", .qreg "io" num_q),
                       ("eigenvalue_register", .qreg "eigs" num_a),
                       ("ancilla_register", .qreg "anc" 1),
                       ("self._success_bit", .creg 1)])]
            printed := []
            executed := false } := by
  simp [run, construct_circuit]

/-- C10: the `CUSTOM` size assert of lines 138–139 can never fire (it
asserts a non-empty tuple, which is always truthy), so `init_params` never
raises an assertion failure; the vector handed on is extended by
`2^num_q - len(invec)` zeros, which for a too-long vector means no change
at all — neither extension nor truncation. -/
theorem C10_custom_assert_unreachable (matrixArg : Option (List (List ℚ)))
    (backend : String) (mode : Option String) (initStateName : String)
    (stateVector : List PyEntry) (num_q num_a : Nat) :
    init_params matrixArg backend mode initStateName stateVector
        num_q num_a ≠ .error .assertionError ∧
    customAssert (matrixArg.getD []).length stateVector.length = .ok () ∧
    fixInvec stateVector num_q =
      stateVector ++
        List.replicate (2 ^ num_q - stateVector.length) (.num 0) ∧
    (fixInvec stateVector num_q).length =
      max (2 ^ num_q) stateVector.length ∧
    (2 ^ num_q ≤ stateVector.length →
      fixInvec stateVector num_q = stateVector) := by
  refine ⟨?_, rfl, rfl, ?_, ?_⟩
  · cases matrixArg with
    | none => simp [init_params]
    | some m =>
      by_cases h1 : mode = some "exact_simulation" <;>
        by_cases h2 : backend ≠ "local_statevector_simulator" <;>
          by_cases h3 : mode = some "state_tomography" <;>
            by_cases h4 : initStateName = "CUSTOM" <;>
              simp [init_params, h1, h2, h3, h4, customAssert, tupleTruthy]
  · simp only [fixInvec, List.length_append, List.length_replicate]
    omega
  · intro h
    simp [fixInvec, Nat.sub_eq_zero_of_le h]

/-- C1 fails as stated: an `exact_simulation` run on a state vector with
full success mass (so the extractor produces the non-trivial mapping
`{"10": 1.0}` with `p = 1`) still returns the empty `self._ret`
dictionary: neither the mapping nor `p` is part of the returned result. -/
theorem C1_result_lacks_mapping :
    retOf (run (some "exact_simulation") 2 0 sv6) = [] ∧
    success_prob sv6 3 = 1 :=
  ⟨by simp [run, retOf], success_prob_sv6⟩

/-- C1 amended: an `exact_simulation` run computes the decoded mapping and
the success probability, but only prints the mapping (line 216) — `p` is
computed at line 210 and then dropped — and returns the untouched, empty
result dictionary. -/
theorem C1_mapping_only_printed (num_q num_a : Nat) (sv : List Cplx) :
    run (some "exact_simulation") num_q num_a sv =
      .ok { ret := []
            printed := [exact_dict sv (num_q + num_a + 1) num_q]
            executed := true } := by
  have h : ((construct_circuit (some "exact_simulation")
      num_q num_a).qregs.map Prod.snd).sum = num_q + num_a + 1 := by
    simp [construct_circuit]
    omega
  simp [run, h]

/-- C2 fails as stated: a run dispatched in `state_tomography` mode does
not fail — `_state_tomography` is `pass` — and returns the empty result
dictionary. -/
theorem C2_state_tomography_silent :
    run (some "state_tomography") 2 1 [] =
      .ok { ret := [], printed := [], executed := false } := by
  simp [run]

/-- C2 amended: selecting `state_tomography` through `init_params` fails
with `NotImplementedError` (the spec's `NotSupportedError`) before any
setup, but the `_state_tomography` handler reached by `run` is a silent
no-op: such a run returns the empty result dictionary without failing. -/
theorem C2_state_tomography_guard (m : List (List ℚ)) (backend : String)
    (initStateName : String) (stateVector : List PyEntry)
    (num_q num_a nq na : Nat) (sv : List Cplx) :
    init_params (some m) backend (some "state_tomography") initStateName
        stateVector num_q num_a = .error .notImplementedError ∧
    run (some "state_tomography") nq na sv =
      .ok { ret := [], printed := [], executed := false } :=
  ⟨by simp [init_params], by simp [run]⟩

end HHL
